import Mathlib

/- Shallow embedding of the FluxFlow backend (main.py): the resource limiter,
the three language executors and the /run dispatcher, and the hybrid
JDoodle/Piston orchestrator behind /run-code. External effects (subprocess
completion, remote HTTP calls) enter the model as explicit outcome
parameters; filesystem and spawn activity of a request is returned alongside
the HTTP reply as an explicit trace. -/

set_option autoImplicit false
set_option linter.unusedVariables false

namespace FluxFlow

/-- Configured ceiling MAX_EXECUTION_TIME = 5 seconds (main.py line 23). -/
def MAX_EXECUTION_TIME : Nat := 5

/-- Configured ceiling MAX_OUTPUT_SIZE = 50000 characters (main.py line 24). -/
def MAX_OUTPUT_SIZE : Nat := 50000

/-- Python slicing of a string, s[:n]: the first n characters of s. -/
def strTake (s : String) (n : Nat) : String := String.mk (s.data.take n)

/-- Bool test that the second character list starts with the first. -/
def charsStartWith : List Char → List Char → Bool
  | [], _ => true
  | _ :: _, [] => false
  | a :: as, b :: bs => a == b && charsStartWith as bs

/-- Bool test that the pattern occurs contiguously in the character list. -/
def charsContain (pat : List Char) : List Char → Bool
  | [] => charsStartWith pat []
  | b :: bs => charsStartWith pat (b :: bs) || charsContain pat bs

/-- Python substring test (pat in s), as a contiguous occurrence check on the
character lists of the two strings. -/
def strContainsSub (s pat : String) : Bool := charsContain pat.data s.data

/-- Modules imported anywhere in main.py, at module level or inside a
function body. The resource module is not among them, although the function
set_limits refers to it. -/
def importedModules : List String :=
  ["flask", "flask_cors", "subprocess", "tempfile", "os", "sys", "time",
   "json", "firebase_admin", "datetime", "supabase", "requests"]

/-- One rlimit pair of soft and hard bound, as passed to setrlimit. -/
structure RLimit where
  soft : Nat
  hard : Nat
deriving DecidableEq

/-- The pair of limits a call to setrlimit-based limiting would install:
an address-space bound and a CPU-time bound. -/
structure ResourceLimits where
  addressSpace : RLimit
  cpuTime : RLimit
deriving DecidableEq

/-- The function set_limits of main.py (lines 40 to 45): RLIMIT_AS at
50 * 1024 * 1024 bytes and RLIMIT_CPU at 5 seconds. -/
def set_limits : ResourceLimits :=
  { addressSpace := ⟨50 * 1024 * 1024, 50 * 1024 * 1024⟩, cpuTime := ⟨5, 5⟩ }

/-- One subprocess.run invocation as written in main.py: which program is
run, the timeout argument in seconds, and whether preexec_fn = set_limits is
passed so that the resource limiter is installed in the child before it
executes. -/
structure SpawnSpec where
  tool : String
  timeoutSeconds : Nat
  preexecSetLimits : Bool
deriving DecidableEq

/-- The interpreter spawn of execute_python (lines 410 to 416): sys.executable
on the temp file, timeout MAX_EXECUTION_TIME, and no preexec_fn argument. -/
def pySpawn : SpawnSpec := ⟨"python-interpreter", MAX_EXECUTION_TIME, false⟩

/-- The gcc compile spawn of execute_c (lines 459 to 464): timeout 10,
no preexec_fn argument. -/
def gccSpawn : SpawnSpec := ⟨"gcc", 10, false⟩

/-- The compiled-binary spawn of execute_c (lines 477 to 483): timeout
MAX_EXECUTION_TIME, no preexec_fn argument. -/
def cBinSpawn : SpawnSpec := ⟨"compiled-c-binary", MAX_EXECUTION_TIME, false⟩

/-- The g++ compile spawn of execute_cpp (lines 521 to 526): timeout 15,
no preexec_fn argument. -/
def gppSpawn : SpawnSpec := ⟨"g++", 15, false⟩

/-- The compiled-binary spawn of execute_cpp (lines 539 to 545): timeout
MAX_EXECUTION_TIME, no preexec_fn argument. -/
def cppBinSpawn : SpawnSpec := ⟨"compiled-cpp-binary", MAX_EXECUTION_TIME, false⟩

/-- A completed subprocess: returncode plus captured stdout and stderr. -/
structure ProcResult where
  returncode : Int
  stdout : String
  stderr : String
deriving DecidableEq

/-- Outcome of one subprocess.run call: normal completion, a raised
subprocess.TimeoutExpired, or some other exception carrying str(e). -/
inductive SpawnOutcome where
  | ok (result : ProcResult)
  | timeout
  | exn (msg : String)
deriving DecidableEq

/-- JSON body of a reply, with absent keys modelled as none. -/
structure ApiResponse where
  success : Option Bool := none
  output : Option String := none
  error : Option String := none
  exit_code : Option Int := none
  phase : Option String := none
  language : Option String := none
  source : Option String := none
deriving DecidableEq

/-- An HTTP reply: status code and JSON body. A bare jsonify in main.py is
status 200; a tuple carries the explicit status. -/
structure HttpReply where
  status : Nat
  body : ApiResponse
deriving DecidableEq

/-- Filesystem and spawn activity of one /run request: how many temporary
artifacts (file or directory) were created, how many remain on disk when the
call returns, and the subprocess invocations that were issued. -/
structure Trace where
  tempsCreated : Nat := 0
  tempsRemaining : Nat := 0
  spawns : List SpawnSpec := []
deriving DecidableEq

/-- The except-block shared verbatim by all three executors for
subprocess.TimeoutExpired: HTTP 408 with the fixed message built from
MAX_EXECUTION_TIME (lines 432 to 438, 494 to 500, 556 to 562). -/
def timeoutReply : HttpReply :=
  ⟨408, { success := some false, output := some "",
          error := some ("Execution timeout (" ++ toString MAX_EXECUTION_TIME ++
                         "s limit exceeded)"),
          exit_code := some (-1) }⟩

/-- The except-block shared by all three executors for any other exception:
HTTP 500 with str(e). -/
def serverErrorReply (msg : String) : HttpReply :=
  ⟨500, { success := some false, output := some "", error := some msg,
          exit_code := some (-1) }⟩

/-- The function execute_python of main.py (lines 402 to 445): write the code
to a temporary file, run the interpreter on it, truncate each captured stream
to MAX_OUTPUT_SIZE, and delete the file in a finally block, which runs on the
normal path and before the timeout and exception handlers alike. The spawn
outcome is an explicit parameter; the materialization of the source file is
assumed to succeed. -/
def execute_python (code stdin_input : String) (runOut : SpawnOutcome) :
    HttpReply × Trace :=
  let tr : Trace := { tempsCreated := 1, tempsRemaining := 0, spawns := [pySpawn] }
  match runOut with
  | .ok result =>
      (⟨200, { success := some (result.returncode == 0),
               output := some (strTake result.stdout MAX_OUTPUT_SIZE),
               error := some (strTake result.stderr MAX_OUTPUT_SIZE),
               exit_code := some result.returncode,
               language := some "python" }⟩, tr)
  | .timeout => (timeoutReply, tr)
  | .exn msg => (serverErrorReply msg, tr)

/-- The function execute_c of main.py (lines 448 to 507): inside a
TemporaryDirectory context (removed on every exit path), compile with gcc;
on nonzero compiler exit return the compilation-phase reply without running
the binary; otherwise run the binary. Compile and run outcomes are explicit
parameters. -/
def execute_c (code stdin_input : String) (compileOut runOut : SpawnOutcome) :
    HttpReply × Trace :=
  match compileOut with
  | .ok cr =>
      if cr.returncode != 0 then
        (⟨200, { success := some false, output := some "",
                 error := some (strTake cr.stderr MAX_OUTPUT_SIZE),
                 exit_code := some cr.returncode,
                 phase := some "compilation",
                 language := some "c" }⟩,
         { tempsCreated := 1, tempsRemaining := 0, spawns := [gccSpawn] })
      else
        match runOut with
        | .ok rr =>
            (⟨200, { success := some (rr.returncode == 0),
                     output := some (strTake rr.stdout MAX_OUTPUT_SIZE),
                     error := some (strTake rr.stderr MAX_OUTPUT_SIZE),
                     exit_code := some rr.returncode,
                     phase := some "execution",
                     language := some "c" }⟩,
             { tempsCreated := 1, tempsRemaining := 0, spawns := [gccSpawn, cBinSpawn] })
        | .timeout =>
            (timeoutReply,
             { tempsCreated := 1, tempsRemaining := 0, spawns := [gccSpawn, cBinSpawn] })
        | .exn msg =>
            (serverErrorReply msg,
             { tempsCreated := 1, tempsRemaining := 0, spawns := [gccSpawn, cBinSpawn] })
  | .timeout =>
      (timeoutReply, { tempsCreated := 1, tempsRemaining := 0, spawns := [gccSpawn] })
  | .exn msg =>
      (serverErrorReply msg, { tempsCreated := 1, tempsRemaining := 0, spawns := [gccSpawn] })

/-- The function execute_cpp of main.py (lines 510 to 569): same shape as
execute_c with g++, compile timeout 15, and language tag cpp. -/
def execute_cpp (code stdin_input : String) (compileOut runOut : SpawnOutcome) :
    HttpReply × Trace :=
  match compileOut with
  | .ok cr =>
      if cr.returncode != 0 then
        (⟨200, { success := some false, output := some "",
                 error := some (strTake cr.stderr MAX_OUTPUT_SIZE),
                 exit_code := some cr.returncode,
                 phase := some "compilation",
                 language := some "cpp" }⟩,
         { tempsCreated := 1, tempsRemaining := 0, spawns := [gppSpawn] })
      else
        match runOut with
        | .ok rr =>
            (⟨200, { success := some (rr.returncode == 0),
                     output := some (strTake rr.stdout MAX_OUTPUT_SIZE),
                     error := some (strTake rr.stderr MAX_OUTPUT_SIZE),
                     exit_code := some rr.returncode,
                     phase := some "execution",
                     language := some "cpp" }⟩,
             { tempsCreated := 1, tempsRemaining := 0, spawns := [gppSpawn, cppBinSpawn] })
        | .timeout =>
            (timeoutReply,
             { tempsCreated := 1, tempsRemaining := 0, spawns := [gppSpawn, cppBinSpawn] })
        | .exn msg =>
            (serverErrorReply msg,
             { tempsCreated := 1, tempsRemaining := 0, spawns := [gppSpawn, cppBinSpawn] })
  | .timeout =>
      (timeoutReply, { tempsCreated := 1, tempsRemaining := 0, spawns := [gppSpawn] })
  | .exn msg =>
      (serverErrorReply msg, { tempsCreated := 1, tempsRemaining := 0, spawns := [gppSpawn] })

/-- Request body of POST /run; absent JSON keys are none. -/
structure RunRequest where
  code : Option String := none
  language : Option String := none
  input : Option String := none
deriving DecidableEq

/-- The five subprocess outcomes a /run request can consume, one per possible
spawn site; the dispatcher forwards the relevant ones to the chosen
executor. -/
structure Outcomes where
  py : SpawnOutcome
  cCompile : SpawnOutcome
  cRun : SpawnOutcome
  cppCompile : SpawnOutcome
  cppRun : SpawnOutcome

/-- Language normalization written identically in both endpoints:
data.get of the language key with default python, then lower(), modelled as
a character-wise lowercase map. -/
def effectiveLanguage (language : Option String) : String :=
  String.mk ((language.getD "python").data.map Char.toLower)

/-- The endpoint run_code of main.py (lines 358 to 397): validate, then
dispatch on the normalized language. Validation failures return before any
executor is entered, so their trace is empty. -/
def run_code (data : Option RunRequest) (oc : Outcomes) : HttpReply × Trace :=
  match data with
  | none => (⟨400, { error := some "No JSON body provided" }⟩, {})
  | some d =>
      let code := d.code.getD ""
      let language := effectiveLanguage d.language
      let stdin_input := d.input.getD ""
      if code = "" then (⟨400, { error := some "No code provided" }⟩, {})
      else if code.length > 10000 then
        (⟨400, { error := some "Code too long (max 10000 chars)" }⟩, {})
      else if language = "python" then execute_python code stdin_input oc.py
      else if language = "c" then execute_c code stdin_input oc.cCompile oc.cRun
      else if language = "cpp" then execute_cpp code stdin_input oc.cppCompile oc.cppRun
      else (⟨400, { error := some ("Unsupported language: " ++ language) }⟩, {})

/-- Request body of POST /run-code; absent JSON keys are none. -/
structure RunCodeRequest where
  script : Option String := none
  language : Option String := none
  stdin : Option String := none
deriving DecidableEq

/-- What run_hybrid_code reads from a JDoodle HTTP response: the HTTP status
code and the output key of the JSON body when present. -/
structure JdoodleRaw where
  statusCode : Nat
  output : Option String
deriving DecidableEq

/-- The run object inside a Piston response: stdout, stderr, and the code key
when present (read with default 0). -/
structure PistonRun where
  stdout : String
  stderr : String
  code : Option Int
deriving DecidableEq

/-- What run_hybrid_code reads from a Piston HTTP response: the run object
when present, else the message key. -/
structure PistonRaw where
  run : Option PistonRun
  message : Option String
deriving DecidableEq

/-- Outcome of one outbound requests.post call: a parsed response, a raised
requests.Timeout, or some other exception carrying str(e). -/
inductive HttpOutcome (α : Type) where
  | ok (response : α)
  | timeout
  | exn (msg : String)

/-- The jdoodle_map dict of main.py (lines 254 to 265). -/
def jdoodle_map : List (String × String) :=
  [("c", "c"), ("cpp", "cpp17"), ("python", "python3"), ("java", "java"),
   ("js", "nodejs"), ("csharp", "csharp"), ("go", "go"), ("kotlin", "kotlin"),
   ("swift", "swift"), ("dart", "dart")]

/-- The expression jdoodle_map.get(language, "python3") of main.py line 267. -/
def jdoodle_lang (language : String) : String :=
  (jdoodle_map.lookup language).getD "python3"

/-- The piston_map dict of main.py (lines 303 to 314). -/
def piston_map : List (String × String) :=
  [("c", "c"), ("cpp", "c++"), ("python", "python"), ("java", "java"),
   ("js", "javascript"), ("csharp", "csharp"), ("go", "go"), ("kotlin", "kotlin"),
   ("swift", "swift"), ("dart", "dart")]

/-- The expression piston_map.get(language, "python") of main.py line 316. -/
def piston_lang (language : String) : String :=
  (piston_map.lookup language).getD "python"

/-- The payload posted to JDoodle (lines 269 to 276), credentials omitted. -/
structure JdoodlePayload where
  script : String
  language : String
  versionIndex : String
  stdin : String
deriving DecidableEq

/-- The payload posted to Piston (lines 318 to 323), with the single file
content inlined. -/
structure PistonPayload where
  language : String
  version : String
  content : String
  stdin : String
deriving DecidableEq

/-- Which backends one /run-code request actually called, and with what
payload. -/
structure HybridTrace where
  jdoodleCall : Option JdoodlePayload := none
  pistonCall : Option PistonPayload := none
deriving DecidableEq

/-- The JDoodle branch of run_hybrid_code (lines 278 to 299): some reply when
the branch returns it as final, none when control falls through to Piston,
which happens on a network exception, on a response without status 200 and an
output key, and on the Daily Limit Reached marker. -/
def jdoodle_attempt (language : String) (jd : HttpOutcome JdoodleRaw) :
    Option HttpReply :=
  match jd with
  | .ok result =>
      if result.statusCode == 200 && result.output.isSome then
        let output := result.output.getD ""
        if !(strContainsSub output "Daily Limit Reached") then
          some ⟨200, { success := some true,
                       output := some (if output = "" then "(No output)" else output),
                       error := some "",
                       source := some "JDoodle",
                       language := some language }⟩
        else none
      else none
  | .timeout => none
  | .exn _ => none

/-- The Piston section of run_hybrid_code (lines 302 to 355): a response with
a run object yields success iff its code is 0, with stdout and stderr
concatenated as output; a response without one yields the Piston Error reply;
requests.Timeout yields 408 and any other exception 500. -/
def piston_attempt (language : String) (ps : HttpOutcome PistonRaw) : HttpReply :=
  match ps with
  | .ok result =>
      match result.run with
      | some r =>
          let output := r.stdout ++ r.stderr
          let exit_code := r.code.getD 0
          ⟨200, { success := some (exit_code == 0),
                  output := some (if output = "" then "(No output)" else output),
                  error := some (if exit_code != 0 then r.stderr else ""),
                  source := some "Piston",
                  language := some language }⟩
      | none =>
          ⟨200, { success := some false, output := some "",
                  error := some ("Piston Error: " ++
                                 (result.message.getD "Unknown error from Piston")),
                  source := some "Piston",
                  language := some language }⟩
  | .timeout => ⟨408, { error := some "Execution timeout", success := some false }⟩
  | .exn msg => ⟨500, { error := some ("Server error: " ++ msg), success := some false }⟩

/-- The endpoint run_hybrid_code of main.py (lines 224 to 355): validate,
attempt JDoodle when credentials are configured, and fall back to Piston
whenever the JDoodle branch does not return a final reply. The two backend
outcomes are explicit parameters; the trace records which backends were
called and with what payload. -/
def run_hybrid_code (data : Option RunCodeRequest) (jdoodleConfigured : Bool)
    (jd : HttpOutcome JdoodleRaw) (ps : HttpOutcome PistonRaw) :
    HttpReply × HybridTrace :=
  match data with
  | none => (⟨400, { error := some "No JSON body provided", success := some false }⟩, {})
  | some d =>
      let script := d.script.getD ""
      let language := effectiveLanguage d.language
      let stdin := d.stdin.getD ""
      if script = "" then
        (⟨400, { error := some "No script provided", success := some false }⟩, {})
      else
        let jpay : JdoodlePayload := ⟨script, jdoodle_lang language, "0", stdin⟩
        let ppay : PistonPayload := ⟨piston_lang language, "*", script, stdin⟩
        if jdoodleConfigured then
          match jdoodle_attempt language jd with
          | some reply => (reply, { jdoodleCall := some jpay })
          | none =>
              (piston_attempt language ps,
               { jdoodleCall := some jpay, pistonCall := some ppay })
        else
          (piston_attempt language ps, { pistonCall := some ppay })

/-- One interaction with the JDoodle backend: the terminal exit code of the
program the backend executed on behalf of the request, and the raw response
it sent back. The orchestrator reads only the response; the exit code of the
remote process is not part of any field it inspects. -/
structure JdoodleScenario where
  procExitCode : Int
  resp : JdoodleRaw
deriving DecidableEq

/-- A JDoodle interaction for a script that divides by zero: the remote
process exits with code 1 and the backend reports the traceback text as
output under HTTP 200. -/
def divByZeroScenario : JdoodleScenario :=
  ⟨1, { statusCode := 200, output := some "ZeroDivisionError: division by zero" }⟩

/-- A string of 50001 identical characters, one more than MAX_OUTPUT_SIZE. -/
def longOut : String := String.mk (List.replicate 50001 'x')

theorem execute_python_trace (code stdin : String) (o : SpawnOutcome) :
    (execute_python code stdin o).2 = ⟨1, 0, [pySpawn]⟩ := by
  cases o <;> rfl

theorem execute_c_temps (code stdin : String) (c r : SpawnOutcome) :
    (execute_c code stdin c r).2.tempsCreated = 1 ∧
    (execute_c code stdin c r).2.tempsRemaining = 0 := by
  cases c with
  | ok cr =>
      by_cases h : (cr.returncode != 0) = true
      · simp [execute_c, h]
      · cases r <;> simp [execute_c, h]
  | timeout => exact ⟨rfl, rfl⟩
  | exn m => exact ⟨rfl, rfl⟩

theorem execute_cpp_temps (code stdin : String) (c r : SpawnOutcome) :
    (execute_cpp code stdin c r).2.tempsCreated = 1 ∧
    (execute_cpp code stdin c r).2.tempsRemaining = 0 := by
  cases c with
  | ok cr =>
      by_cases h : (cr.returncode != 0) = true
      · simp [execute_cpp, h]
      · cases r <;> simp [execute_cpp, h]
  | timeout => exact ⟨rfl, rfl⟩
  | exn m => exact ⟨rfl, rfl⟩

theorem length_longOut : longOut.length = 50001 := by
  show (List.replicate 50001 'x').length = 50001
  rw [List.length_replicate]

/-- Claim C1: every subprocess spawned to run untrusted code via /run has the
resource limiter applied at process-creation time, constraining address space
to 50 MB and CPU time to 5 seconds. The code defines set_limits with exactly
those ceilings but never passes it as preexec_fn at any spawn site, and never
imports the resource module it refers to, so every untrusted process is
spawned unconstrained. -/
theorem C1_resource_limiter_never_applied :
    set_limits = ⟨⟨52428800, 52428800⟩, ⟨5, 5⟩⟩ ∧
    "resource" ∉ importedModules ∧
    (execute_python "print(1)" "" (.ok ⟨0, "", ""⟩)).2.spawns = [pySpawn] ∧
    pySpawn.preexecSetLimits = false ∧
    gccSpawn.preexecSetLimits = false ∧
    cBinSpawn.preexecSetLimits = false ∧
    gppSpawn.preexecSetLimits = false ∧
    cppBinSpawn.preexecSetLimits = false :=
  ⟨rfl, by decide, rfl, rfl, rfl, rfl, rfl, rfl⟩

/-- Claim C6, counterexample: when the compile phase of a C request times
out, the exceeded ceiling is the gcc timeout of 10 seconds, yet the reply
message names the 5 second run ceiling, so the message does not report the
ceiling that was exceeded. -/
theorem C6_counterexample :
    (execute_c "int main();" "" .timeout (.ok ⟨0, "", ""⟩)).1 =
      ⟨408,
       { success := some false,
         output := some "",
         error := some "Execution timeout (5s limit exceeded)",
         exit_code := some (-1) }⟩ ∧
    gccSpawn.timeoutSeconds = 10 ∧
    (execute_c "int main();" "" .timeout (.ok ⟨0, "", ""⟩)).1.body.error ≠
      some "Execution timeout (10s limit exceeded)" := by
  refine ⟨by decide, rfl, by decide⟩

/-- Claim C6 as amended: whenever the compile or run phase of a /run request
exceeds its time ceiling, the endpoint returns HTTP 408 with success false,
empty output, exit_code minus one, and the fixed message naming
MAX_EXECUTION_TIME = 5 seconds, even when the exceeded ceiling is the compile
ceiling of 10 seconds for C or 15 seconds for C++; a timeout is never
reported as an ordinary nonzero-exit runtime error. -/
theorem C6_amended_timeout_reply :
    timeoutReply =
      ⟨408,
       { success := some false,
         output := some "",
         error := some "Execution timeout (5s limit exceeded)",
         exit_code := some (-1) }⟩ ∧
    (∀ code stdin, (execute_python code stdin .timeout).1 = timeoutReply) ∧
    (∀ code stdin runOut, (execute_c code stdin .timeout runOut).1 = timeoutReply) ∧
    (∀ code stdin cout cerr,
      (execute_c code stdin (.ok ⟨0, cout, cerr⟩) .timeout).1 = timeoutReply) ∧
    (∀ code stdin runOut, (execute_cpp code stdin .timeout runOut).1 = timeoutReply) ∧
    (∀ code stdin cout cerr,
      (execute_cpp code stdin (.ok ⟨0, cout, cerr⟩) .timeout).1 = timeoutReply) ∧
    gccSpawn.timeoutSeconds = 10 ∧ gppSpawn.timeoutSeconds = 15 ∧
    pySpawn.timeoutSeconds = MAX_EXECUTION_TIME ∧
    cBinSpawn.timeoutSeconds = MAX_EXECUTION_TIME ∧
    cppBinSpawn.timeoutSeconds = MAX_EXECUTION_TIME := by
  refine ⟨by decide, fun _ _ => rfl, fun _ _ _ => rfl, fun _ _ _ _ => rfl,
          fun _ _ _ => rfl, fun _ _ _ _ => rfl, rfl, rfl, rfl, rfl, rfl⟩

/-- Claim C8: on every exit path of a /run execution the temporary file or
directory created for the request is removed before the call returns. In the
model each executor creates exactly one temporary artifact and every outcome
branch leaves zero on disk, and the dispatcher never leaves one behind
either. -/
theorem C8_temp_cleanup :
    (∀ code stdin o, (execute_python code stdin o).2.tempsCreated = 1 ∧
        (execute_python code stdin o).2.tempsRemaining = 0) ∧
    (∀ code stdin c r, (execute_c code stdin c r).2.tempsCreated = 1 ∧
        (execute_c code stdin c r).2.tempsRemaining = 0) ∧
    (∀ code stdin c r, (execute_cpp code stdin c r).2.tempsCreated = 1 ∧
        (execute_cpp code stdin c r).2.tempsRemaining = 0) ∧
    (∀ data oc, (run_code data oc).2.tempsRemaining = 0) := by
  refine ⟨fun code stdin o => by rw [execute_python_trace]; exact ⟨rfl, rfl⟩,
          fun code stdin c r => execute_c_temps code stdin c r,
          fun code stdin c r => execute_cpp_temps code stdin c r,
          fun data oc => ?_⟩
  cases data with
  | none => rfl
  | some d =>
      simp only [run_code]
      split
      · rfl
      · split
        · rfl
        · split
          · rw [execute_python_trace]
          · split
            · exact (execute_c_temps _ _ _ _).2
            · split
              · exact (execute_cpp_temps _ _ _ _).2
              · rfl

/-- Claim C10: a request body without a language field defaults to python on
both endpoints and proceeds rather than being rejected, and any supplied
identifier is lowercased before dispatch, so PYTHON is accepted as python. -/
theorem C10_language_default_lowercase :
    effectiveLanguage none = "python" ∧
    (∀ s, effectiveLanguage (some s) = String.mk (s.data.map Char.toLower)) ∧
    effectiveLanguage (some "PYTHON") = "python" ∧
    (∀ oc, (run_code (some ⟨some "print(1)", none, none⟩) oc).2.spawns = [pySpawn]) ∧
    (∀ oc, (run_code (some ⟨some "print(1)", some "PYTHON", none⟩) oc).2.spawns
        = [pySpawn]) ∧
    (∀ jd, (run_hybrid_code (some ⟨some "print(1)", none, none⟩) false jd
        (.ok ⟨some ⟨"1", "", some 0⟩, none⟩)).1.status = 200) := by
  refine ⟨by decide, fun s => rfl, by decide, fun oc => ?_, fun oc => ?_, fun jd => rfl⟩
  · rw [show (run_code (some ⟨some "print(1)", none, none⟩) oc).2
          = (execute_python "print(1)" "" oc.py).2 from rfl, execute_python_trace]
  · rw [show (run_code (some ⟨some "print(1)", some "PYTHON", none⟩) oc).2
          = (execute_python "print(1)" "" oc.py).2 from rfl, execute_python_trace]

theorem piston_attempt_source (language : String) (ps : HttpOutcome PistonRaw) :
    (piston_attempt language ps).body.source = some "Piston" ∨
    (piston_attempt language ps).body.source = none := by
  cases ps with
  | ok raw =>
      rcases raw with ⟨r, m⟩
      cases r with
      | none => exact Or.inl rfl
      | some rr => exact Or.inl rfl
  | timeout => exact Or.inr rfl
  | exn m => exact Or.inr rfl

/-- Claim C2, counterexample: the JDoodle path of /run-code reports success
true for any HTTP 200 response carrying an output key without the quota
marker, with no regard to the exit status of the executed process. In the
divide-by-zero scenario the remote process exits with code 1, yet the final
result has success true and is tagged JDoodle. -/
theorem C2_counterexample :
    divByZeroScenario.procExitCode ≠ 0 ∧
    (run_hybrid_code (some ⟨some "1/0", some "python", none⟩) true
        (.ok divByZeroScenario.resp) (.ok ⟨none, none⟩)).1.body.success = some true ∧
    (run_hybrid_code (some ⟨some "1/0", some "python", none⟩) true
        (.ok divByZeroScenario.resp) (.ok ⟨none, none⟩)).1.body.source = some "JDoodle" := by
  refine ⟨by decide, rfl, rfl⟩

/-- Claim C2 as amended: on the /run executors and on the Piston path of
/run-code, success is true iff the terminal exit code is 0 and no timeout or
internal error occurred; on the JDoodle path, success is true whenever the
backend answers HTTP 200 with an output field that lacks the quota marker,
regardless of the exit status of the executed program, which the orchestrator
never inspects. -/
theorem C2_amended_success_semantics :
    (∀ code stdin r, (execute_python code stdin (.ok r)).1.body.success
        = some (r.returncode == 0)) ∧
    (∀ code stdin, (execute_python code stdin .timeout).1.body.success = some false) ∧
    (∀ code stdin m, (execute_python code stdin (.exn m)).1.body.success = some false) ∧
    (∀ code stdin cr rr, (execute_c code stdin (.ok cr) (.ok rr)).1.body.success
        = some (if cr.returncode != 0 then false else rr.returncode == 0)) ∧
    (∀ code stdin cr rr, (execute_cpp code stdin (.ok cr) (.ok rr)).1.body.success
        = some (if cr.returncode != 0 then false else rr.returncode == 0)) ∧
    (∀ lang r msg, (piston_attempt lang (.ok ⟨some r, msg⟩)).body.success
        = some (r.code.getD 0 == 0)) ∧
    (∀ lang msg, (piston_attempt lang (.ok ⟨none, msg⟩)).body.success = some false) ∧
    (∀ lang, (piston_attempt lang .timeout).body.success = some false) ∧
    (∀ lang m, (piston_attempt lang (.exn m)).body.success = some false) ∧
    (∀ lang out, jdoodle_attempt lang (.ok ⟨200, some out⟩)
        = if strContainsSub out "Daily Limit Reached" then none
          else some ⟨200,
                     { success := some true,
                       output := some (if out = "" then "(No output)" else out),
                       error := some "",
                       source := some "JDoodle",
                       language := some lang }⟩) := by
  refine ⟨fun _ _ _ => rfl, fun _ _ => rfl, fun _ _ _ => rfl, ?_, ?_,
          fun _ _ _ => rfl, fun _ _ => rfl, fun _ => rfl, fun _ _ => rfl, ?_⟩
  · intro code stdin cr rr
    by_cases h : (cr.returncode != 0) = true
    · simp [execute_c, h]
    · simp [execute_c, h]
  · intro code stdin cr rr
    by_cases h : (cr.returncode != 0) = true
    · simp [execute_cpp, h]
    · simp [execute_cpp, h]
  · intro lang out
    by_cases h : strContainsSub out "Daily Limit Reached" = true
    · simp [jdoodle_attempt, h]
    · simp [jdoodle_attempt, h]

/-- Claim C3: if JDoodle answers HTTP 200 with an output containing the
Daily Limit Reached marker, that response is never returned as final: the
orchestrator always proceeds to call Piston, the final result is never tagged
JDoodle, and whenever the Piston call yields a parsed response the final
result is tagged Piston. -/
theorem C3_quota_fallback (d : RunCodeRequest) (out : String)
    (ps : HttpOutcome PistonRaw)
    (hscript : d.script.getD "" ≠ "")
    (hmark : strContainsSub out "Daily Limit Reached" = true) :
    (run_hybrid_code (some d) true (.ok ⟨200, some out⟩) ps).1.body.source
        ≠ some "JDoodle" ∧
    (run_hybrid_code (some d) true (.ok ⟨200, some out⟩) ps).2.pistonCall.isSome
        = true ∧
    (∀ raw, ps = .ok raw →
      (run_hybrid_code (some d) true (.ok ⟨200, some out⟩) ps).1.body.source
          = some "Piston") := by
  have hj : jdoodle_attempt (effectiveLanguage d.language) (.ok ⟨200, some out⟩)
      = none := by
    simp [jdoodle_attempt, hmark]
  have key : run_hybrid_code (some d) true (.ok ⟨200, some out⟩) ps =
      (piston_attempt (effectiveLanguage d.language) ps,
       ⟨some ⟨d.script.getD "", jdoodle_lang (effectiveLanguage d.language), "0",
              d.stdin.getD ""⟩,
        some ⟨piston_lang (effectiveLanguage d.language), "*", d.script.getD "",
              d.stdin.getD ""⟩⟩) := by
    simp only [run_hybrid_code, hj]
    rw [if_neg hscript]
    simp
  refine ⟨?_, ?_, ?_⟩
  · rw [key]
    rcases piston_attempt_source (effectiveLanguage d.language) ps with h | h <;>
      simp [h]
  · rw [key]
    rfl
  · intro raw hps
    subst hps
    rw [key]
    rcases raw with ⟨r, m⟩
    cases r with
    | none => rfl
    | some rr => rfl

/-- Claim C3 witness: the concrete quota-exhaustion scenario with a healthy
Piston backend. -/
theorem C3_quota_fallback_witness :
    (run_hybrid_code (some ⟨some "x = 1", some "python", none⟩) true
        (.ok ⟨200, some "Daily Limit Reached"⟩)
        (.ok ⟨some ⟨"hi", "", some 0⟩, none⟩)).1.body.source ≠ some "JDoodle" ∧
    (run_hybrid_code (some ⟨some "x = 1", some "python", none⟩) true
        (.ok ⟨200, some "Daily Limit Reached"⟩)
        (.ok ⟨some ⟨"hi", "", some 0⟩, none⟩)).2.pistonCall.isSome = true ∧
    (∀ raw, (.ok ⟨some ⟨"hi", "", some 0⟩, none⟩ : HttpOutcome PistonRaw) = .ok raw →
      (run_hybrid_code (some ⟨some "x = 1", some "python", none⟩) true
          (.ok ⟨200, some "Daily Limit Reached"⟩)
          (.ok ⟨some ⟨"hi", "", some 0⟩, none⟩)).1.body.source = some "Piston") :=
  C3_quota_fallback ⟨some "x = 1", some "python", none⟩ "Daily Limit Reached"
    (.ok ⟨some ⟨"hi", "", some 0⟩, none⟩) (by decide) (by decide)

/-- Claim C4, counterexample: on /run-code no truncation is applied. A Piston
response whose stdout holds 50001 characters and whose stderr holds one more
yields an output field of length 50002, above the 50000 cap. -/
theorem C4_counterexample :
    (run_hybrid_code (some ⟨some "spam", some "python", none⟩) false
        (.ok ⟨200, some ""⟩) (.ok ⟨some ⟨longOut, "!", some 0⟩, none⟩)).1.body.output
      = some (longOut ++ "!") ∧
    MAX_OUTPUT_SIZE < (longOut ++ "!").length := by
  have h : (longOut ++ "!").length = 50002 := by
    show (List.replicate 50001 'x' ++ ['!']).length = 50002
    rw [List.length_append, List.length_replicate]
    decide
  refine ⟨rfl, ?_⟩
  rw [h]
  decide

/-- Claim C4 as amended: on /run, stdout and stderr are truncated
independently to at most MAX_OUTPUT_SIZE characters each, the truncated
stream having length the minimum of the cap and the stream length; on
/run-code no truncation is applied and the output field carries the full
backend output. -/
theorem C4_amended_truncation :
    (∀ code stdin r,
      (execute_python code stdin (.ok r)).1.body.output
          = some (strTake r.stdout MAX_OUTPUT_SIZE) ∧
      (execute_python code stdin (.ok r)).1.body.error
          = some (strTake r.stderr MAX_OUTPUT_SIZE)) ∧
    (∀ code stdin cout cerr r,
      (execute_c code stdin (.ok ⟨0, cout, cerr⟩) (.ok r)).1.body.output
          = some (strTake r.stdout MAX_OUTPUT_SIZE) ∧
      (execute_c code stdin (.ok ⟨0, cout, cerr⟩) (.ok r)).1.body.error
          = some (strTake r.stderr MAX_OUTPUT_SIZE)) ∧
    (∀ code stdin cout cerr r,
      (execute_cpp code stdin (.ok ⟨0, cout, cerr⟩) (.ok r)).1.body.output
          = some (strTake r.stdout MAX_OUTPUT_SIZE) ∧
      (execute_cpp code stdin (.ok ⟨0, cout, cerr⟩) (.ok r)).1.body.error
          = some (strTake r.stderr MAX_OUTPUT_SIZE)) ∧
    (∀ s n, (strTake s n).length = min n s.length) ∧
    (∀ lang r msg,
      (piston_attempt lang (.ok ⟨some r, msg⟩)).body.output
          = some (if r.stdout ++ r.stderr = "" then "(No output)"
                  else r.stdout ++ r.stderr)) := by
  refine ⟨fun _ _ _ => ⟨rfl, rfl⟩, fun _ _ _ _ _ => ⟨rfl, rfl⟩,
          fun _ _ _ _ _ => ⟨rfl, rfl⟩, fun s n => ?_, fun _ _ _ => rfl⟩
  show (s.data.take n).length = min n s.length
  rw [List.length_take]
  rfl

/-- Claim C5: for every C or C++ request to /run whose compilation exits
nonzero, the endpoint returns immediately with success false, compilation
phase, empty stdout, the compiler diagnostics truncated to the cap as the
error field, and the compiler exit code; the binary is never executed. -/
theorem C5_compile_failure_gate (code stdin : String) (cr : ProcResult)
    (oc : Outcomes)
    (hc : code ≠ "") (hl : ¬ code.length > 10000) (hnz : cr.returncode ≠ 0)
    (hcComp : oc.cCompile = .ok cr) (hcppComp : oc.cppCompile = .ok cr) :
    run_code (some ⟨some code, some "c", some stdin⟩) oc =
      (⟨200,
        { success := some false,
          output := some "",
          error := some (strTake cr.stderr MAX_OUTPUT_SIZE),
          exit_code := some cr.returncode,
          phase := some "compilation",
          language := some "c" }⟩,
       ⟨1, 0, [gccSpawn]⟩) ∧
    cBinSpawn ∉ (run_code (some ⟨some code, some "c", some stdin⟩) oc).2.spawns ∧
    run_code (some ⟨some code, some "cpp", some stdin⟩) oc =
      (⟨200,
        { success := some false,
          output := some "",
          error := some (strTake cr.stderr MAX_OUTPUT_SIZE),
          exit_code := some cr.returncode,
          phase := some "compilation",
          language := some "cpp" }⟩,
       ⟨1, 0, [gppSpawn]⟩) ∧
    cppBinSpawn ∉ (run_code (some ⟨some code, some "cpp", some stdin⟩) oc).2.spawns := by
  have hbne : (cr.returncode != 0) = true := bne_iff_ne.mpr hnz
  have hcE : execute_c code stdin (.ok cr) oc.cRun =
      (⟨200,
        { success := some false,
          output := some "",
          error := some (strTake cr.stderr MAX_OUTPUT_SIZE),
          exit_code := some cr.returncode,
          phase := some "compilation",
          language := some "c" }⟩,
       ⟨1, 0, [gccSpawn]⟩) := by
    simp only [execute_c]
    rw [if_pos hbne]
  have hcppE : execute_cpp code stdin (.ok cr) oc.cppRun =
      (⟨200,
        { success := some false,
          output := some "",
          error := some (strTake cr.stderr MAX_OUTPUT_SIZE),
          exit_code := some cr.returncode,
          phase := some "compilation",
          language := some "cpp" }⟩,
       ⟨1, 0, [gppSpawn]⟩) := by
    simp only [execute_cpp]
    rw [if_pos hbne]
  have h1 : run_code (some ⟨some code, some "c", some stdin⟩) oc
      = execute_c code stdin oc.cCompile oc.cRun := by
    simp only [run_code, Option.getD_some]
    rw [if_neg hc, if_neg hl]
    rfl
  have h2 : run_code (some ⟨some code, some "cpp", some stdin⟩) oc
      = execute_cpp code stdin oc.cppCompile oc.cppRun := by
    simp only [run_code, Option.getD_some]
    rw [if_neg hc, if_neg hl]
    rfl
  refine ⟨?_, ?_, ?_, ?_⟩
  · rw [h1, hcComp, hcE]
  · rw [h1, hcComp, hcE]
    show cBinSpawn ∉ [gccSpawn]
    decide
  · rw [h2, hcppComp, hcppE]
  · rw [h2, hcppComp, hcppE]
    show cppBinSpawn ∉ [gppSpawn]
    decide

/-- Claim C5 witness: a failing gcc and g++ compilation with exit code 1. -/
theorem C5_compile_failure_gate_witness :
    run_code (some ⟨some "int main();", some "c", some ""⟩)
        ⟨.timeout, .ok ⟨1, "", "bad code"⟩, .timeout, .ok ⟨1, "", "bad code"⟩,
         .timeout⟩ =
      (⟨200,
        { success := some false,
          output := some "",
          error := some (strTake "bad code" MAX_OUTPUT_SIZE),
          exit_code := some 1,
          phase := some "compilation",
          language := some "c" }⟩,
       ⟨1, 0, [gccSpawn]⟩) ∧
    cBinSpawn ∉ (run_code (some ⟨some "int main();", some "c", some ""⟩)
        ⟨.timeout, .ok ⟨1, "", "bad code"⟩, .timeout, .ok ⟨1, "", "bad code"⟩,
         .timeout⟩).2.spawns ∧
    run_code (some ⟨some "int main();", some "cpp", some ""⟩)
        ⟨.timeout, .ok ⟨1, "", "bad code"⟩, .timeout, .ok ⟨1, "", "bad code"⟩,
         .timeout⟩ =
      (⟨200,
        { success := some false,
          output := some "",
          error := some (strTake "bad code" MAX_OUTPUT_SIZE),
          exit_code := some 1,
          phase := some "compilation",
          language := some "cpp" }⟩,
       ⟨1, 0, [gppSpawn]⟩) ∧
    cppBinSpawn ∉ (run_code (some ⟨some "int main();", some "cpp", some ""⟩)
        ⟨.timeout, .ok ⟨1, "", "bad code"⟩, .timeout, .ok ⟨1, "", "bad code"⟩,
         .timeout⟩).2.spawns :=
  C5_compile_failure_gate "int main();" "" ⟨1, "", "bad code"⟩
    ⟨.timeout, .ok ⟨1, "", "bad code"⟩, .timeout, .ok ⟨1, "", "bad code"⟩, .timeout⟩
    (by decide) (by decide) (by decide) rfl rfl

/-- Claim C7: a /run request with empty code, code longer than 10000
characters, or a normalized language outside python, c and cpp is rejected
with HTTP 400 before any executor runs, so no process is spawned and no
temporary artifact is created. -/
theorem C7_validation_rejects (req : RunRequest) (oc : Outcomes)
    (h : req.code.getD "" = "" ∨ 10000 < (req.code.getD "").length ∨
         (effectiveLanguage req.language ≠ "python" ∧
          effectiveLanguage req.language ≠ "c" ∧
          effectiveLanguage req.language ≠ "cpp")) :
    (run_code (some req) oc).1.status = 400 ∧
    (run_code (some req) oc).2 = ⟨0, 0, []⟩ := by
  by_cases hc : req.code.getD "" = ""
  · have key : run_code (some req) oc
        = (⟨400, { error := some "No code provided" }⟩, {}) := by
      simp only [run_code]
      rw [if_pos hc]
    rw [key]
    exact ⟨rfl, rfl⟩
  · by_cases hlen : (req.code.getD "").length > 10000
    · have key : run_code (some req) oc
          = (⟨400, { error := some "Code too long (max 10000 chars)" }⟩, {}) := by
        simp only [run_code]
        rw [if_neg hc, if_pos hlen]
      rw [key]
      exact ⟨rfl, rfl⟩
    · rcases h with h | h | ⟨h1, h2, h3⟩
      · exact absurd h hc
      · exact absurd h hlen
      · have key : run_code (some req) oc
            = (⟨400, { error := some ("Unsupported language: "
                        ++ effectiveLanguage req.language) }⟩, {}) := by
          simp only [run_code]
          rw [if_neg hc, if_neg hlen, if_neg h1, if_neg h2, if_neg h3]
        rw [key]
        exact ⟨rfl, rfl⟩

/-- Claim C7 witness: a nonempty one-character program in an unsupported
language. -/
theorem C7_validation_rejects_witness :
    (run_code (some ⟨some "x", some "haskell", none⟩)
        ⟨.timeout, .timeout, .timeout, .timeout, .timeout⟩).1.status = 400 ∧
    (run_code (some ⟨some "x", some "haskell", none⟩)
        ⟨.timeout, .timeout, .timeout, .timeout, .timeout⟩).2 = ⟨0, 0, []⟩ :=
  C7_validation_rejects ⟨some "x", some "haskell", none⟩
    ⟨.timeout, .timeout, .timeout, .timeout, .timeout⟩
    (Or.inr (Or.inr ⟨by decide, by decide, by decide⟩))

/-- Claim C9, counterexample: for a language id absent from both mapping
tables, here ruby, the JDoodle client sends python3 and the Piston client
sends python, not the identifier unchanged. -/
theorem C9_counterexample :
    (run_hybrid_code (some ⟨some "y = 1", some "ruby", none⟩) true
        (.exn "connection refused") (.ok ⟨some ⟨"hi", "", some 0⟩, none⟩)).2
      = ⟨some ⟨"y = 1", "python3", "0", ""⟩, some ⟨"python", "*", "y = 1", ""⟩⟩ ∧
    ("python3" : String) ≠ "ruby" ∧ ("python" : String) ≠ "ruby" := by
  refine ⟨rfl, by decide, by decide⟩

/-- Claim C9 as amended: when the language id is absent from a remote client
mapping table, the client substitutes that backend Python identifier, python3
for JDoodle and python for Piston, rather than sending the id unchanged. -/
theorem C9_amended_default_mapping (l : String)
    (hj : jdoodle_map.lookup l = none) (hp : piston_map.lookup l = none) :
    jdoodle_lang l = "python3" ∧ piston_lang l = "python" :=
  ⟨by simp [jdoodle_lang, hj], by simp [piston_lang, hp]⟩

/-- Claim C9 amended witness: ruby is unmapped in both tables. -/
theorem C9_amended_default_mapping_witness :
    jdoodle_lang "ruby" = "python3" ∧ piston_lang "ruby" = "python" :=
  C9_amended_default_mapping "ruby" (by decide) (by decide)

end FluxFlow
